import Mathlib

/-!
Shallow embedding of the cart aggregate and order workflow of the
`ecommerce-backend` repository (Express + Prisma), together with theorems
settling the frozen claims about its specification.

Sources embedded:
- `src/server/controller/cart.controller.ts` (getOrCreateCart, addItemToCart,
  updateCartItem, removeItemFromCart, getCartSummary);
- `src/unnamed/part_003`, the current revision of the order controller
  (createOrder with Prisma.Decimal arithmetic, updateOrderStatus); the file
  `src/server/controller/order.controller.ts` is an earlier revision that still
  reads `item.colorId` from cart items, a column removed from `cart_items` by
  the latest `schema.prisma`, so `part_003` is the revision matching the
  current schema and is taken as the authority where the two differ;
- `src/server/schema/cart.schema.ts` and `src/server/schema/order.schema.ts`
  (zod validators);
- `src/prisma/schema.prisma` (data model: Cart, CartItem, Order, OrderItem,
  Product, Package, OrderStatus enum).

Modelling conventions:
- Prisma `Decimal` columns are modelled as `ℚ`: Prisma.Decimal add/mul on
  `Decimal(10,2)` prices and integer quantities are exact at the magnitudes
  the store admits, so `ℚ` with exact `+`/`*` is a faithful model of the
  `Decimal.add`/`Decimal.mul` calls in `part_003`.
- JavaScript `number` values produced by `Decimal.toNumber()` /
  `parseFloat` and combined with `+`/`*` are modelled as rationals rounded to
  IEEE-754 binary64 by `fl` (round to nearest, ties to even, 53-bit
  significand; subnormal/overflow ranges are irrelevant at the magnitudes of
  `Decimal(10,2)` columns and are not modelled).
- Database tables are lists of rows; `findUnique`/`findFirst` are `List.find?`
  and relation `include`s are `List.filter` over the child table.
- Each route handler becomes a pure function `DB → inputs → response × DB`.
  Freshly generated cuid primary keys are passed in as explicit arguments.
- A `try/catch` around a sequence of awaited Prisma calls is modelled by a
  fault parameter selecting which call (if any) throws: a throwing call has no
  effect, later calls are skipped, and the catch branch produces the error
  response, while the effects of earlier completed calls persist (there is no
  `$transaction` in the source).
-/

namespace Ecom

/-! ## IEEE-754 binary64 model (for the JavaScript float arithmetic in
`getCartSummary`, which uses `Decimal.toNumber()` and JS `+`/`*`). -/

/-- Largest `e : ℤ` with `2 ^ e ≤ |q|`, for `q ≠ 0`. -/
def flExp (q : ℚ) : ℤ :=
  let a := |q|
  let e0 : ℤ := (Nat.log2 a.num.natAbs : ℤ) - (Nat.log2 a.den : ℤ)
  if (2 : ℚ) ^ (e0 + 1) ≤ a then e0 + 1
  else if (2 : ℚ) ^ e0 ≤ a then e0
  else e0 - 1

/-- Round a rational to the nearest integer, ties to even. -/
def rndHalfEven (x : ℚ) : ℤ :=
  let f := ⌊x⌋
  let r := x - f
  if r < 1/2 then f
  else if r > 1/2 then f + 1
  else if f % 2 = 0 then f else f + 1

/-- Round a rational to the nearest IEEE-754 binary64 value (round to
nearest, ties to even), returned as a rational.  Exponent-range effects
(subnormals, overflow) are outside the magnitudes handled here. -/
def fl (q : ℚ) : ℚ :=
  if q = 0 then 0
  else
    let e := flExp q
    (rndHalfEven (q * (2 : ℚ) ^ ((52 : ℤ) - e))) * (2 : ℚ) ^ (e - (52 : ℤ))

/-- JavaScript `x.toFixed(2)` read back as the decimal value it prints:
the multiple `n / 100` nearest to `x`, ties toward the larger `n`. -/
def toFixed2 (x : ℚ) : ℚ := (⌊100 * x + 1/2⌋ : ℤ) / 100

/-! ## Data model (from `src/prisma/schema.prisma`).
Only the columns the claims are about are carried; elided columns
(names, descriptions, timestamps, image URLs, stock, …) are not read by any
embedded operation. -/

/-- Row of `products` (model `Product`): `price Decimal @db.Decimal(10, 2)`. -/
structure Product where
  id : String
  price : ℚ
  deriving DecidableEq

/-- Row of `packages` (model `Package`): `price Decimal @db.Decimal(10, 2)`. -/
structure Package where
  id : String
  price : ℚ
  deriving DecidableEq

/-- Row of `carts` (model `Cart`): `sessionId String @unique`. -/
structure Cart where
  id : String
  sessionId : String
  deriving DecidableEq

/-- Row of `cart_items` (model `CartItem`): nullable `productId`/`packageId`
references and an `Int` quantity. -/
structure CartItem where
  id : String
  cartId : String
  productId : Option String
  packageId : Option String
  quantity : Int
  deriving DecidableEq

/-- The `OrderStatus` enum of `schema.prisma`. -/
inductive OrderStatus where
  | PENDING | CONFIRMED | PROCESSING | SHIPPED | DELIVERED | CANCELLED
  deriving DecidableEq

/-- Row of `OrderItem`: value-copied `price` and `subtotal` Decimal columns.
(`colorId` is not written by the current `createOrder` and is elided.) -/
structure OrderItem where
  productId : Option String
  packageId : Option String
  quantity : Int
  price : ℚ
  subtotal : ℚ
  deriving DecidableEq

/-- Row of `Order`, with its `OrderItem` children inlined (they are created
through the nested `items: { create: … }` write and only ever read through
`include`). -/
structure Order where
  id : String
  sessionId : String
  name : String
  phone : String
  address : String
  total : ℚ
  status : OrderStatus
  items : List OrderItem
  deriving DecidableEq

/-- The persistent store: one list per table. -/
structure DB where
  products : List Product
  packages : List Package
  carts : List Cart
  cartItems : List CartItem
  orders : List Order
  deriving DecidableEq

/-! ## Lookups (Prisma queries used by the handlers). -/

/-- `prisma.product.findUnique({ where: { id } })` (`id` is the primary key). -/
def findProduct (db : DB) (pid : String) : Option Product :=
  db.products.find? (fun p => p.id == pid)

/-- `prisma.package.findUnique({ where: { id } })`. -/
def findPackage (db : DB) (pkid : String) : Option Package :=
  db.packages.find? (fun p => p.id == pkid)

/-- `prisma.cart.findUnique({ where: { sessionId } })` (`sessionId` is
`@unique`). -/
def findCart (db : DB) (sid : String) : Option Cart :=
  db.carts.find? (fun c => c.sessionId == sid)

/-- The `items` relation of a cart: rows of `cart_items` with this `cartId`
(what an `include: { items: … }` returns). -/
def cartItemsOf (db : DB) (cid : String) : List CartItem :=
  db.cartItems.filter (fun it => it.cartId == cid)

/-- The resolved product of a cart line (`item.product` under `include`). -/
def itemProduct (db : DB) (it : CartItem) : Option Product :=
  it.productId.bind (findProduct db)

/-- The resolved package of a cart line (`item.package` under `include`). -/
def itemPackage (db : DB) (it : CartItem) : Option Package :=
  it.packageId.bind (findPackage db)

/-- The unit price `createOrder` reads for a line:
`if (item.product) unitPrice = item.product.price; else if (item.package)
unitPrice = item.package.price;` with `new Prisma.Decimal(0)` otherwise. -/
def unitPrice (db : DB) (it : CartItem) : ℚ :=
  match itemProduct db it with
  | some p => p.price
  | none =>
    match itemPackage db it with
    | some pk => pk.price
    | none => 0

/-- The exact fixed-point decimal total of a cart: the sum over its lines of
unit price times quantity, with no rounding anywhere. -/
def exactCartTotal (db : DB) (cid : String) : ℚ :=
  ((cartItemsOf db cid).map (fun it => unitPrice db it * (it.quantity : ℚ))).sum

/-! ## Cart aggregate handlers (`src/server/controller/cart.controller.ts`).
Request-body fields are passed as arguments; truthiness checks on strings
become emptiness checks and absent-or-falsy ids become `Option.none`
(the handlers normalize with `productId || null` / `packageId || null`). -/

/-- Response of `getOrCreateCart`: `400` when `sessionId` is falsy, else the
cart with its `items` relation included. -/
inductive GetCartResp where
  | badRequest (msg : String)
  | okCart (cart : Cart) (items : List CartItem)
  deriving DecidableEq

/-- `getOrCreateCart`: look the cart up by session id; if absent, create an
empty one (primary key `freshCartId`); answer with the cart and its items. -/
def getOrCreateCart (db : DB) (freshCartId sid : String) :
    GetCartResp × DB :=
  if sid.isEmpty then (.badRequest "Session ID is required", db)
  else
    match findCart db sid with
    | some c => (.okCart c (cartItemsOf db c.id), db)
    | none =>
      let c : Cart := { id := freshCartId, sessionId := sid }
      let db1 : DB := { db with carts := db.carts ++ [c] }
      (.okCart c (cartItemsOf db1 c.id), db1)

/-- Items listed by a `getOrCreateCart` response (empty on `400`). -/
def gocItems : GetCartResp → List CartItem
  | .badRequest _ => []
  | .okCart _ items => items

/-- Response of `addItemToCart`: `400` for a bad reference, else `201` with
the created or updated line. -/
inductive AddResp where
  | badRequest (msg : String)
  | created (item : CartItem)
  deriving DecidableEq

/-- The dedupe-or-insert step of `addItemToCart`, after the cart is
resolved: `prisma.cartItem.findFirst` on the exact
`(cartId, productId, packageId)` triple (the handler normalizes absent refs
to `null`); on a hit, `prisma.cartItem.update` bumps that row's quantity by
the requested amount; otherwise `prisma.cartItem.create` inserts a new row
(primary key `freshItemId`).  Either way the handler answers `201` with the
resulting line. -/
def insertOrBump (db1 : DB) (cart : Cart) (freshItemId : String)
    (productId packageId : Option String) (q : Int) : AddResp × DB :=
  match db1.cartItems.find?
      (fun it => it.cartId == cart.id && it.productId == productId
        && it.packageId == packageId) with
  | some existing =>
    (.created { existing with quantity := existing.quantity + q },
      { db1 with
        cartItems := db1.cartItems.map
          (fun it => if it.id == existing.id
            then { it with quantity := existing.quantity + q } else it) })
  | none =>
    let newItem : CartItem :=
      { id := freshItemId, cartId := cart.id, productId := productId,
        packageId := packageId, quantity := q }
    (.created newItem, { db1 with cartItems := db1.cartItems ++ [newItem] })

/-- `addItemToCart`: reject unless exactly one of `productId`/`packageId` is
present; get or create the cart (primary key `freshCartId` when created);
then `insertOrBump`.  `quantity` defaults to `1` when absent from the body
(`const { productId, packageId, quantity = 1 } = req.body`), and the handler
applies no further validation to it. -/
def addItemToCart (db : DB) (freshCartId freshItemId sid : String)
    (productId packageId : Option String) (quantity : Option Int) :
    AddResp × DB :=
  let q := quantity.getD 1
  if sid.isEmpty then (.badRequest "Session ID is required", db)
  else if productId.isNone && packageId.isNone then
    (.badRequest "Either productId or packageId is required", db)
  else if productId.isSome && packageId.isSome then
    (.badRequest "Cannot add both product and package in same item", db)
  else
    match findCart db sid with
    | some cart => insertOrBump db cart freshItemId productId packageId q
    | none =>
      let cart : Cart := { id := freshCartId, sessionId := sid }
      insertOrBump { db with carts := db.carts ++ [cart] } cart freshItemId
        productId packageId q

/-- `prisma.cartItem.delete({ where: { id: itemId } })`: `id` is the primary
key, so removing every row with this id removes exactly the one row. -/
def deleteCartItem (db : DB) (itemId : String) : DB :=
  { db with cartItems := db.cartItems.filter (fun it => !(it.id == itemId)) }

/-- Response of `updateCartItem`. -/
inductive UpdResp where
  | badRequest (msg : String)
  | notFound (msg : String)
  | removed (msg : String)
  | okItem (item : CartItem)
  deriving DecidableEq

/-- `updateCartItem`: `400` on missing params or negative quantity; ownership
check by loading the session cart with `items` filtered to the line id
(`404 Cart item not found` when the cart is absent or the filter is empty);
quantity `0` deletes the line; otherwise the quantity is overwritten. -/
def updateCartItem (db : DB) (sid itemId : String) (quantity : Int) :
    UpdResp × DB :=
  if sid.isEmpty || itemId.isEmpty then
    (.badRequest "Session ID and Item ID are required", db)
  else if quantity < 0 then
    (.badRequest "Quantity cannot be negative", db)
  else
    match findCart db sid with
    | none => (.notFound "Cart item not found", db)
    | some c =>
      match (cartItemsOf db c.id).filter (fun it => it.id == itemId) with
      | [] => (.notFound "Cart item not found", db)
      | it0 :: _ =>
        if quantity = 0 then
          (.removed "Item removed from cart", deleteCartItem db itemId)
        else
          (.okItem { it0 with quantity := quantity },
            { db with
              cartItems := db.cartItems.map
                (fun it => if it.id == itemId
                  then { it with quantity := quantity } else it) })

/-- Response of `removeItemFromCart`. -/
inductive RemResp where
  | badRequest (msg : String)
  | notFound (msg : String)
  | removed (msg : String)
  deriving DecidableEq

/-- `removeItemFromCart`: same ownership check as `updateCartItem`, then the
line is deleted unconditionally. -/
def removeItemFromCart (db : DB) (sid itemId : String) : RemResp × DB :=
  if sid.isEmpty || itemId.isEmpty then
    (.badRequest "Session ID and Item ID are required", db)
  else
    match findCart db sid with
    | none => (.notFound "Cart item not found", db)
    | some c =>
      match (cartItemsOf db c.id).filter (fun it => it.id == itemId) with
      | [] => (.notFound "Cart item not found", db)
      | _ :: _ =>
        (.removed "Item removed from cart successfully", deleteCartItem db itemId)

/-- Response of `getCartSummary` (a read-only handler). -/
inductive SummaryResp where
  | badRequest (msg : String)
  | summary (totalItems : Int) (totalPrice : ℚ) (itemCount : Nat)
  deriving DecidableEq

/-- One line's contribution to the running float total:
`item.product.price.toNumber() * item.quantity` (or the package price), a
binary64 product of the binary64-rounded price, `0` when neither reference
resolves. -/
def summaryLineFl (db : DB) (it : CartItem) : ℚ :=
  match itemProduct db it with
  | some p => fl (fl p.price * (it.quantity : ℚ))
  | none =>
    match itemPackage db it with
    | some pk => fl (fl pk.price * (it.quantity : ℚ))
    | none => 0

/-- `getCartSummary`: zeroed totals when no cart exists; otherwise
`totalItems` accumulates quantities, `totalPrice` accumulates
`price.toNumber() * quantity` in JavaScript float arithmetic, and the reported
price is `parseFloat(totalPrice.toFixed(2))`. -/
def getCartSummary (db : DB) (sid : String) : SummaryResp :=
  if sid.isEmpty then .badRequest "Session ID is required"
  else
    match findCart db sid with
    | none => .summary 0 0 0
    | some c =>
      let items := cartItemsOf db c.id
      let totalItems := (items.map (fun it => it.quantity)).foldl (· + ·) 0
      let totalPrice :=
        (items.map (summaryLineFl db)).foldl (fun acc t => fl (acc + t)) 0
      .summary totalItems (fl (toFixed2 totalPrice)) items.length

/-! ## Validation collaborators (`src/server/schema/*.ts`). -/

/-- Zod cuid check (`z.string().cuid()`, regex `c[^\s-]\x7b8,\x7d` with the
case-insensitive flag): a leading `c`/`C` followed by at least eight
characters none of which is whitespace or a hyphen. -/
def isCuid (s : String) : Bool :=
  match s.data with
  | [] => false
  | c :: rest =>
    (c == 'c' || c == 'C') && rest.length ≥ 8
      && rest.all (fun ch => !(ch.isWhitespace || ch == '-'))

/-- `orderSchema` of `order.schema.ts`: `sessionId` min length 1, `name` min
length 1, `phone` min length 6, `address` min length 1. -/
def orderBodyValid (sid name phone address : String) : Bool :=
  sid.length ≥ 1 && name.length ≥ 1 && phone.length ≥ 6 && address.length ≥ 1

/-- `addToCartSchema` of `cart.schema.ts`: `productId` a required cuid,
`colorId`/`packageId` optional cuids, `quantity` a required integer `≥ 1`,
refined so that exactly one of `productId`/`packageId` is present.  (The cart
routes never invoke this schema; it is embedded because claim evidence cites
it.)  Integrality of `quantity` is captured by its `Int` type. -/
def addToCartSchemaAccepts (productId : Option String) (colorId : Option String)
    (quantity : Option Int) (packageId : Option String) : Bool :=
  (match productId with | some s => isCuid s | none => false)
    && (match colorId with | some s => isCuid s | none => true)
    && (match quantity with | some q => q ≥ 1 | none => false)
    && (match packageId with | some s => isCuid s | none => true)
    && (productId.isSome != packageId.isSome)

/-- `updateOrderStatusSchema`: `z.nativeEnum(OrderStatus)` accepts exactly the
six enum member strings. -/
def parseStatus (s : String) : Option OrderStatus :=
  if s == "PENDING" then some .PENDING
  else if s == "CONFIRMED" then some .CONFIRMED
  else if s == "PROCESSING" then some .PROCESSING
  else if s == "SHIPPED" then some .SHIPPED
  else if s == "DELIVERED" then some .DELIVERED
  else if s == "CANCELLED" then some .CANCELLED
  else none

/-! ## Order workflow handlers (`src/unnamed/part_003`). -/

/-- Which awaited Prisma call inside `createOrder`, if any, throws.  The
handler body is `order.create` (with nested `items.create`), then
`cartItem.deleteMany`, then `cart.delete`, three separate awaits inside one
`try` block with no `$transaction` around them. -/
inductive CheckoutFault where
  | ok | atOrderCreate | atDeleteItems | atDeleteCart
  deriving DecidableEq

/-- Responses of `createOrder`.  `dbError` stands for the `catch` branch
(`409`/`404`/`500` depending on the thrown error; in every case a failure is
reported to the caller). -/
inductive OrderResp where
  | validationErr
  | emptyCart (msg : String)
  | created (o : Order)
  | dbError
  deriving DecidableEq

/-- One element of the `orderItemsData` array `createOrder` builds: the
per-line snapshot with `price = unitPrice` (the resolved `Decimal` price) and
`subtotal = unitPrice.mul(quantity)`. -/
def orderItemOf (db : DB) (it : CartItem) : OrderItem :=
  { productId := it.productId, packageId := it.packageId,
    quantity := it.quantity, price := unitPrice db it,
    subtotal := unitPrice db it * (it.quantity : ℚ) }

/-- The order row `createOrder` writes for a non-empty cart `c`: customer
fields from the body, status `PENDING`, `items` the per-line snapshots, and
`total` the left-to-right `Decimal.add` accumulation of the subtotals (the
`totalOrderPrice` loop). -/
def checkoutOrder (db : DB) (newOrderId : String)
    (sid name phone address : String) (c : Cart) : Order :=
  { id := newOrderId, sessionId := sid, name := name, phone := phone,
    address := address,
    total := ((cartItemsOf db c.id).map
      (fun it => unitPrice db it * (it.quantity : ℚ))).foldl (· + ·) 0,
    status := .PENDING,
    items := (cartItemsOf db c.id).map (orderItemOf db) }

/-- `createOrder` with an injected fault.  Steps, in source order: validate
the body; load the session cart with items and their product/package
included; `400` when the cart is absent or empty; build the snapshots and
total (`checkoutOrder`); create the order; then delete the cart items; then
delete the cart row.  A faulted call has no effect, later calls are skipped,
and the `catch` branch answers with a failure; effects of calls before the
fault persist because no transaction spans them. -/
def createOrderF (fault : CheckoutFault) (db : DB) (newOrderId : String)
    (sid name phone address : String) : OrderResp × DB :=
  if !orderBodyValid sid name phone address then (.validationErr, db)
  else
    match findCart db sid with
    | none => (.emptyCart "Cart is empty or does not exist for this session", db)
    | some cart =>
      let items := cartItemsOf db cart.id
      if items.isEmpty then
        (.emptyCart "Cart is empty or does not exist for this session", db)
      else
        if fault = .atOrderCreate then (.dbError, db)
        else
          let order : Order := checkoutOrder db newOrderId sid name phone address cart
          let db1 : DB := { db with orders := db.orders ++ [order] }
          if fault = .atDeleteItems then (.dbError, db1)
          else
            let remaining := db1.cartItems.filter (fun it => !(it.cartId == cart.id))
            let db2 : DB := { db1 with cartItems := remaining }
            if fault = .atDeleteCart then (.dbError, db2)
            else
              let db3 : DB :=
                { db2 with carts := db2.carts.filter (fun c => !(c.id == cart.id)) }
              (.created order, db3)

/-- `createOrder` on a run where every Prisma call succeeds. -/
def createOrder (db : DB) (newOrderId : String)
    (sid name phone address : String) : OrderResp × DB :=
  createOrderF .ok db newOrderId sid name phone address

/-- Responses of `updateOrderStatus`. -/
inductive StatusResp where
  | badRequestId
  | badRequestStatus
  | notFound
  | okOrder (o : Order)
  deriving DecidableEq

/-- A `400` validation response of `updateOrderStatus` (either the order-id
cuid check or the status enum check failed). -/
def StatusResp.isValidationErr : StatusResp → Prop
  | .badRequestId => True
  | .badRequestStatus => True
  | _ => False

/-- `updateOrderStatus` (`part_003`): validate the id against
`getOrderByIdSchema` (cuid), validate the body against
`updateOrderStatusSchema` (enum), then `prisma.order.update` writes the
`status` field only; a `P2025` (no row with this id) is answered with `404`. -/
def updateOrderStatusOp (db : DB) (id status : String) : StatusResp × DB :=
  if !isCuid id then (.badRequestId, db)
  else
    match parseStatus status with
    | none => (.badRequestStatus, db)
    | some st =>
      match db.orders.find? (fun o => o.id == id) with
      | none => (.notFound, db)
      | some o =>
        let upd := db.orders.map
          (fun x => if x.id == id then { x with status := st } else x)
        (.okOrder { o with status := st }, { db with orders := upd })

/-- The write `updateProduct` (`product.controller.ts`) performs on the
store: `prisma.product.update({ where: { id }, data: { …, price } })`.
Columns other than `price` are elided from `Product`; the update touches the
`products` table only.  A missing row throws `P2025` (no write). -/
def updateProduct (db : DB) (pid : String) (newPrice : ℚ) : DB :=
  let upd := db.products.map
    (fun p => if p.id == pid then { p with price := newPrice } else p)
  { db with products := upd }

/-- The writes `updatePackage` (package controller) performs on the modelled
tables: `packageItem.deleteMany` (the `package_items` table is not modelled)
and `prisma.package.update` with a new `price`; only the `packages` table
among the modelled ones is touched. -/
def updatePackage (db : DB) (pkid : String) (newPrice : ℚ) : DB :=
  let upd := db.packages.map
    (fun p => if p.id == pkid then { p with price := newPrice } else p)
  { db with packages := upd }

/-! ## Concrete fixtures (cuid-shaped ids; sessions are at least ten
characters long, as the route middleware requires). -/

def prodA : Product := { id := "cprodaaaaa0001", price := 9999999999/100 }

def cartS : Cart := { id := "ccartaaaaa0001", sessionId := "csessionaaaa01" }

def itemA : CartItem :=
  { id := "citemaaaaa0001", cartId := "ccartaaaaa0001",
    productId := some "cprodaaaaa0001", packageId := none, quantity := 999999 }

def db6 : DB :=
  { products := [prodA], packages := [], carts := [cartS],
    cartItems := [itemA], orders := [] }

def prodB : Product := { id := "cprodbbbbb0001", price := 10 }
def cartB : Cart := { id := "ccartbbbbb0001", sessionId := "csessionbbbb01" }
def itemB : CartItem :=
  { id := "citembbbbb0001", cartId := "ccartbbbbb0001",
    productId := some "cprodbbbbb0001", packageId := none, quantity := 2 }
def dbB : DB :=
  { products := [prodB], packages := [], carts := [cartB],
    cartItems := [itemB], orders := [] }

def db9 : DB :=
  { products := [prodB], packages := [], carts := [cartB],
    cartItems := [], orders := [] }

def prodW : Product := { id := "cprodwwwww0001", price := 10 }
def pkgW : Package := { id := "cpkgwwwww00001", price := 51/2 }
def cartW : Cart := { id := "ccartwwwww0001", sessionId := "csessionwwww01" }
def itemW1 : CartItem :=
  { id := "citemwwwww0001", cartId := "ccartwwwww0001",
    productId := some "cprodwwwww0001", packageId := none, quantity := 2 }
def itemW2 : CartItem :=
  { id := "citemwwwww0002", cartId := "ccartwwwww0001",
    productId := none, packageId := some "cpkgwwwww00001", quantity := 1 }
def dbW : DB :=
  { products := [prodW], packages := [pkgW], carts := [cartW],
    cartItems := [itemW1, itemW2], orders := [] }

def orderO : Order :=
  { id := "corderooo00001", sessionId := "csessionbbbb01", name := "Alice",
    phone := "0123456", address := "addr", total := 20, status := .PENDING,
    items := [{ productId := some "cprodbbbbb0001", packageId := none,
                quantity := 2, price := 10, subtotal := 20 }] }
def dbO : DB :=
  { products := [prodB], packages := [], carts := [], cartItems := [],
    orders := [orderO] }

def itemC : CartItem :=
  { id := "citemccccc0001", cartId := "ccartbbbbb0001",
    productId := none, packageId := some "cpkgwwwww00001", quantity := 1 }
def db7 : DB :=
  { products := [prodB], packages := [pkgW], carts := [cartB],
    cartItems := [itemB, itemC], orders := [] }

def cartF : Cart := { id := "ccartfffff0001", sessionId := "csessionffff01" }
def itemF : CartItem :=
  { id := "citemfffff0001", cartId := "ccartfffff0001",
    productId := some "cprodbbbbb0001", packageId := none, quantity := 1 }
def db10a : DB :=
  { products := [prodB], packages := [], carts := [cartB, cartF],
    cartItems := [itemB, itemF], orders := [] }
def db10b : DB :=
  { products := [prodB], packages := [], carts := [cartB, cartF],
    cartItems := [itemB], orders := [] }

/-! ## Evaluation lemmas for `fl`.  `Rat.add`/`Rat.mul` are irreducible, so
concrete binary64 values are established through these characterizations
instead of kernel reduction. -/

theorem flExp_eq_of (q : ℚ) (e : ℤ) (hq : 0 < q)
    (hl : (2 : ℚ) ^ e ≤ q) (hu : q < (2 : ℚ) ^ (e + 1)) : flExp q = e := by
  have habs : |q| = q := abs_of_pos hq
  have hnum : 0 < q.num := Rat.num_pos.mpr hq
  have hden : (0 : ℚ) < (q.den : ℚ) := by
    exact_mod_cast q.pos
  have hnumAbs : ((q.num.natAbs : ℤ) : ℚ) = (q.num : ℚ) := by
    rw [Int.natAbs_of_nonneg hnum.le]
  have hq_eq : q = (q.num : ℚ) / (q.den : ℚ) := (Rat.num_div_den q).symm
  set l1 := Nat.log2 q.num.natAbs with hl1
  set l2 := Nat.log2 q.den with hl2
  have hnum0 : q.num.natAbs ≠ 0 := by
    simpa using (Int.natAbs_pos.mpr (ne_of_gt hnum)).ne.symm
  have hden0 : q.den ≠ 0 := q.den_nz
  have h1a : (2 : ℕ) ^ l1 ≤ q.num.natAbs := Nat.log2_self_le hnum0
  have h1b : q.num.natAbs < 2 ^ (l1 + 1) := Nat.lt_log2_self
  have h2a : (2 : ℕ) ^ l2 ≤ q.den := Nat.log2_self_le hden0
  have h2b : q.den < 2 ^ (l2 + 1) := Nat.lt_log2_self
  -- cast the log bounds into ℚ with ℤ exponents
  have c1a : (2 : ℚ) ^ (l1 : ℤ) ≤ (q.num : ℚ) := by
    rw [← hnumAbs]
    exact_mod_cast h1a
  have c1b : (q.num : ℚ) < (2 : ℚ) ^ ((l1 : ℤ) + 1) := by
    rw [← hnumAbs]
    exact_mod_cast h1b
  have c2a : (2 : ℚ) ^ (l2 : ℤ) ≤ (q.den : ℚ) := by
    exact_mod_cast h2a
  have c2b : (q.den : ℚ) < (2 : ℚ) ^ ((l2 : ℤ) + 1) := by
    exact_mod_cast h2b
  have two_pos : (0 : ℚ) < 2 := by norm_num
  -- the candidate exponent of the definition
  set e0 : ℤ := (l1 : ℤ) - (l2 : ℤ) with he0
  -- upper bound: q < 2 ^ (e0 + 1)
  have hupper : q < (2 : ℚ) ^ (e0 + 1) := by
    rw [hq_eq, div_lt_iff₀ hden]
    calc (q.num : ℚ) < (2 : ℚ) ^ ((l1 : ℤ) + 1) := c1b
      _ = (2 : ℚ) ^ (e0 + 1) * (2 : ℚ) ^ (l2 : ℤ) := by
          rw [← zpow_add₀ (ne_of_gt two_pos)]; ring_nf
      _ ≤ (2 : ℚ) ^ (e0 + 1) * (q.den : ℚ) := by
          have := zpow_pos two_pos (e0 + 1)
          exact mul_le_mul_of_nonneg_left c2a this.le
  -- lower bound: 2 ^ (e0 - 1) < q
  have hlower : (2 : ℚ) ^ (e0 - 1) < q := by
    rw [hq_eq, lt_div_iff₀ hden]
    calc (2 : ℚ) ^ (e0 - 1) * (q.den : ℚ)
        < (2 : ℚ) ^ (e0 - 1) * (2 : ℚ) ^ ((l2 : ℤ) + 1) := by
          have := zpow_pos two_pos (e0 - 1)
          exact mul_lt_mul_of_pos_left c2b this
      _ = (2 : ℚ) ^ (l1 : ℤ) := by
          rw [← zpow_add₀ (ne_of_gt two_pos)]; ring_nf
      _ ≤ (q.num : ℚ) := c1a
  -- pin e against e0 using both pairs of bounds
  have he_le : e ≤ e0 := by
    by_contra h
    push_neg at h
    have : e0 + 1 ≤ e := h
    have : (2 : ℚ) ^ (e0 + 1) ≤ (2 : ℚ) ^ e :=
      zpow_le_zpow_right₀ (by norm_num) this
    exact absurd (lt_of_lt_of_le (lt_of_lt_of_le hupper this) hl) (lt_irrefl q)
  have he_ge : e0 - 1 ≤ e := by
    by_contra h
    push_neg at h
    have h' : e + 1 ≤ e0 - 1 := by omega
    have : (2 : ℚ) ^ (e + 1) ≤ (2 : ℚ) ^ (e0 - 1) :=
      zpow_le_zpow_right₀ (by norm_num) h'
    exact absurd (lt_of_lt_of_le (lt_of_le_of_lt (le_of_lt hlower) hu) this)
      (lt_irrefl _)
  -- evaluate the definition
  rw [flExp]
  simp only [habs, ← hl1, ← hl2, ← he0]
  rcases eq_or_lt_of_le he_le with heq | hlt
  · -- e = e0: the middle branch fires
    subst heq
    rw [if_neg (not_le.mpr hu), if_pos hl]
  · -- e = e0 - 1: both tests fail
    have heq : e = e0 - 1 := by omega
    subst heq
    have hnot1 : ¬ (2 : ℚ) ^ (e0 + 1) ≤ q := by
      intro hcon
      have : (2 : ℚ) ^ e0 ≤ (2 : ℚ) ^ (e0 + 1) :=
        zpow_le_zpow_right₀ (by norm_num) (by omega)
      have : (2 : ℚ) ^ (e0 - 1 + 1) ≤ q := by
        have h2 : e0 - 1 + 1 ≤ e0 + 1 := by omega
        exact le_trans (zpow_le_zpow_right₀ (by norm_num) h2) hcon
      exact absurd hu (not_lt.mpr this)
    have hnot2 : ¬ (2 : ℚ) ^ e0 ≤ q := by
      intro hcon
      have : (2 : ℚ) ^ (e0 - 1 + 1) ≤ q := by simpa using hcon
      exact absurd hu (not_lt.mpr this)
    rw [if_neg hnot1, if_neg hnot2]

theorem rndHalfEven_eq_of_lt (x : ℚ) (f : ℤ) (h1 : (f : ℚ) ≤ x)
    (h2 : x < f + 1) (h3 : x - f < 1/2) : rndHalfEven x = f := by
  have hf : ⌊x⌋ = f := Int.floor_eq_iff.mpr ⟨h1, h2⟩
  rw [rndHalfEven]
  simp only [hf]
  rw [if_pos h3]

theorem fl_eval (q : ℚ) (e m : ℤ) (hq : 0 < q)
    (hl : (2 : ℚ) ^ e ≤ q) (hu : q < (2 : ℚ) ^ (e + 1))
    (hm : rndHalfEven (q * (2 : ℚ) ^ ((52 : ℤ) - e)) = m) :
    fl q = (m : ℚ) * (2 : ℚ) ^ (e - (52 : ℤ)) := by
  have he : flExp q = e := flExp_eq_of q e hq hl hu
  rw [fl, if_neg (ne_of_gt hq)]
  simp only [he, hm]

/-- A line whose product reference resolves is priced at that product. -/
theorem unitPrice_product (db : DB) (it : CartItem) (p : Product)
    (hp : itemProduct db it = some p) : unitPrice db it = p.price := by
  rw [unitPrice, hp]

/-- A line resolving only to a package is priced at that package. -/
theorem unitPrice_package (db : DB) (it : CartItem) (pk : Package)
    (hp : itemProduct db it = none) (hk : itemPackage db it = some pk) :
    unitPrice db it = pk.price := by
  rw [unitPrice, hp, hk]

/-- `insertOrBump` on a `findFirst` hit bumps the matched row. -/
theorem insertOrBump_found (db1 : DB) (cart : Cart) (fid : String)
    (productId packageId : Option String) (q : Int) (existing : CartItem)
    (hf : db1.cartItems.find? (fun it => it.cartId == cart.id
      && it.productId == productId && it.packageId == packageId) = some existing) :
    insertOrBump db1 cart fid productId packageId q =
      (.created { existing with quantity := existing.quantity + q },
       { db1 with
         cartItems := db1.cartItems.map
           (fun it => if (it.id == existing.id) = true
             then { it with quantity := existing.quantity + q } else it) }) := by
  rw [insertOrBump, hf]

/-- `insertOrBump` on a `findFirst` miss inserts a fresh row. -/
theorem insertOrBump_none (db1 : DB) (cart : Cart) (fid : String)
    (productId packageId : Option String) (q : Int)
    (hf : db1.cartItems.find? (fun it => it.cartId == cart.id
      && it.productId == productId && it.packageId == packageId) = none) :
    insertOrBump db1 cart fid productId packageId q =
      (.created { id := fid, cartId := cart.id, productId := productId,
                  packageId := packageId, quantity := q },
       { db1 with cartItems := db1.cartItems ++
         [{ id := fid, cartId := cart.id, productId := productId,
            packageId := packageId, quantity := q }] }) := by
  rw [insertOrBump, hf]

/-- Branch lemma: the fault-free `createOrder` on a non-empty cart. -/
theorem createOrder_success (db : DB) (nid sid name phone address : String)
    (c : Cart)
    (hv : orderBodyValid sid name phone address = true)
    (hc : findCart db sid = some c)
    (hne : cartItemsOf db c.id ≠ []) :
    createOrder db nid sid name phone address =
      (.created (checkoutOrder db nid sid name phone address c),
       { db with
         orders := db.orders ++ [checkoutOrder db nid sid name phone address c],
         cartItems := db.cartItems.filter (fun it => !(it.cartId == c.id)),
         carts := db.carts.filter (fun x => !(x.id == c.id)) }) := by
  have hemp : (cartItemsOf db c.id).isEmpty = false := by
    simpa [List.isEmpty_iff] using hne
  rw [createOrder, createOrderF, if_neg (by simp [hv])]
  simp only [hc, hemp, Bool.false_eq_true, if_false]
  rw [if_neg (by decide), if_neg (by decide), if_neg (by decide)]

/-- `updateCartItem` answers `404` when the session cart holds no such line. -/
theorem updateCartItem_notFound (db : DB) (sid itemId : String) (q : ℤ)
    (hs : sid.isEmpty = false) (hi : itemId.isEmpty = false) (hq : ¬ q < 0)
    (h : ∀ c, findCart db sid = some c → ∀ it ∈ cartItemsOf db c.id, it.id ≠ itemId) :
    updateCartItem db sid itemId q = (.notFound "Cart item not found", db) := by
  rw [updateCartItem, if_neg (by simp [hs, hi]), if_neg hq]
  split
  · rfl
  · next c2 heq =>
    split
    · rfl
    · next it0 tail hm =>
      exfalso
      have hin : it0 ∈ (cartItemsOf db c2.id).filter (fun it => it.id == itemId) := by
        rw [hm]; exact List.mem_cons_self _ _
      have hmem := List.mem_filter.mp hin
      exact h c2 heq it0 hmem.1 (by simpa using hmem.2)

/-- `removeItemFromCart` answers `404` when the session cart holds no such line. -/
theorem removeItemFromCart_notFound (db : DB) (sid itemId : String)
    (hs : sid.isEmpty = false) (hi : itemId.isEmpty = false)
    (h : ∀ c, findCart db sid = some c → ∀ it ∈ cartItemsOf db c.id, it.id ≠ itemId) :
    removeItemFromCart db sid itemId = (.notFound "Cart item not found", db) := by
  rw [removeItemFromCart, if_neg (by simp [hs, hi])]
  split
  · rfl
  · next c2 heq =>
    split
    · rfl
    · next it0 tail hm =>
      exfalso
      have hin : it0 ∈ (cartItemsOf db c2.id).filter (fun it => it.id == itemId) := by
        rw [hm]; exact List.mem_cons_self _ _
      have hmem := List.mem_filter.mp hin
      exact h c2 heq it0 hmem.1 (by simpa using hmem.2)

/-- Branch lemma: `getCartSummary` when a cart is found for the session. -/
theorem getCartSummary_found (db : DB) (sid : String) (c : Cart)
    (hs : sid.isEmpty = false) (hc : findCart db sid = some c) :
    getCartSummary db sid = .summary
      (((cartItemsOf db c.id).map (fun it => it.quantity)).foldl (· + ·) 0)
      (fl (toFixed2 (((cartItemsOf db c.id).map (summaryLineFl db)).foldl
        (fun acc t => fl (acc + t)) 0)))
      (cartItemsOf db c.id).length := by
  rw [getCartSummary, if_neg (by simp [hs]), hc]

/-- The binary64 rounding of the `Decimal(10,2)` price `99999999.99`. -/
theorem fl_bigPrice : fl ((9999999999 : ℚ)/100) = (6710886399328911 : ℚ) / 67108864 := by
  have h := fl_eval ((9999999999 : ℚ)/100) 26 6710886399328911 (by norm_num)
    (by norm_num) (by norm_num)
    (rndHalfEven_eq_of_lt _ 6710886399328911 (by norm_num) (by norm_num) (by norm_num))
  rw [h]; norm_num

/-- The binary64 product of that rounded price with the quantity `999999`. -/
theorem fl_bigProduct : fl ((6710886399328911 : ℚ) / 67108864 * 999999) = 99999899990000 := by
  have h := fl_eval ((6710886399328911 : ℚ) / 67108864 * 999999) 46 6399993599360000
    (by norm_num) (by norm_num) (by norm_num)
    (rndHalfEven_eq_of_lt _ 6399993599360000 (by norm_num) (by norm_num) (by norm_num))
  rw [h]; norm_num

/-- Accumulating the single term into the zero-initialized float total. -/
theorem fl_bigAcc : fl ((0 : ℚ) + 99999899990000) = 99999899990000 := by
  have h := fl_eval ((0 : ℚ) + 99999899990000) 46 6399993599360000
    (by norm_num) (by norm_num) (by norm_num)
    (rndHalfEven_eq_of_lt _ 6399993599360000 (by norm_num) (by norm_num) (by norm_num))
  rw [h]; norm_num

/-- `toFixed(2)` of the float total (already an integer, so unchanged). -/
theorem toFixed2_bigTotal : toFixed2 (99999899990000 : ℚ) = 99999899990000 := by
  rw [toFixed2]
  have hf : ⌊(100 : ℚ) * 99999899990000 + 1/2⌋ = (9999989999000000 : ℤ) :=
    Int.floor_eq_iff.mpr ⟨by norm_num, by norm_num⟩
  rw [hf]; norm_num

/-- `parseFloat` of the printed total (a representable value, so unchanged). -/
theorem fl_bigTotal : fl (99999899990000 : ℚ) = 99999899990000 := by
  have h := fl_eval (99999899990000 : ℚ) 46 6399993599360000
    (by norm_num) (by norm_num) (by norm_num)
    (rndHalfEven_eq_of_lt _ 6399993599360000 (by norm_num) (by norm_num) (by norm_num))
  rw [h]; norm_num

/-- The float contribution of the single line of `db6`. -/
theorem summaryLineFl_db6 : summaryLineFl db6 itemA = 99999899990000 := by
  have hip : itemProduct db6 itemA = some prodA := rfl
  simp only [summaryLineFl, hip]
  have hp : prodA.price = (9999999999 : ℚ)/100 := rfl
  have hq0 : itemA.quantity = 999999 := rfl
  have hq : ((999999 : ℤ) : ℚ) = (999999 : ℚ) := by norm_num
  rw [hp, hq0, hq, fl_bigPrice]
  exact fl_bigProduct

/-- The summary the handler reports for `db6`. -/
theorem cartSummary_db6 : getCartSummary db6 "csessionaaaa01" =
    .summary 999999 99999899990000 1 := by
  have hitems : cartItemsOf db6 cartS.id = [itemA] := by decide
  rw [getCartSummary_found db6 "csessionaaaa01" cartS (by decide) (by decide)]
  rw [hitems, List.map_cons, List.map_nil, List.foldl_cons, List.foldl_nil,
    List.map_cons, List.map_nil, List.foldl_cons, List.foldl_nil]
  rw [summaryLineFl_db6, fl_bigAcc, toFixed2_bigTotal, fl_bigTotal]
  have hq0 : itemA.quantity = 999999 := rfl
  rw [hq0]
  rfl

/-- The exact decimal total of the same cart. -/
theorem exactCartTotal_db6 : exactCartTotal db6 "ccartaaaaa0001" = 9999989999000001/100 := by
  have hitems : cartItemsOf db6 "ccartaaaaa0001" = [itemA] := by decide
  rw [exactCartTotal, hitems, List.map_cons, List.map_nil, List.sum_cons,
    List.sum_nil]
  have hup : unitPrice db6 itemA = (9999999999 : ℚ)/100 := rfl
  have hq0 : itemA.quantity = 999999 := rfl
  rw [hup, hq0]
  norm_num

/-- C1: evidence for the code bug.  `createOrder` runs order creation and
cart deletion as separate awaited Prisma calls with no transaction.  On the
run where the `cartItem.deleteMany` call fails after `order.create`
succeeded, the handler reports a failure, yet the order (with its lines) has
been persisted while the cart and all its lines are exactly as before the
call — both effects did not stand or fall together, contradicting the
claimed atomicity. -/
theorem checkout_not_atomic :
    (createOrderF .atDeleteItems dbB "corderbbbb0001" "csessionbbbb01"
      "Alice" "0123456" "addr").1 = .dbError ∧
    (createOrderF .atDeleteItems dbB "corderbbbb0001" "csessionbbbb01"
      "Alice" "0123456" "addr").2.orders.length = 1 ∧
    (createOrderF .atDeleteItems dbB "corderbbbb0001" "csessionbbbb01"
      "Alice" "0123456" "addr").2.cartItems = dbB.cartItems ∧
    (createOrderF .atDeleteItems dbB "corderbbbb0001" "csessionbbbb01"
      "Alice" "0123456" "addr").2.carts = dbB.carts := by
  refine ⟨?_, ?_, ?_, ?_⟩ <;> decide

/-- C2: for every non-empty cart, place-order answers `201` with an Order of
status `PENDING` appended to the orders table, one OrderLine per cart line;
each line's unit price is the referenced product's (else package's) price
read at checkout time (`unitPrice`), each subtotal is unit price times
quantity, and the order total is the sum of the subtotals. -/
theorem createOrder_price_snapshot (db : DB) (nid sid name phone address : String)
    (c : Cart)
    (hv : orderBodyValid sid name phone address = true)
    (hc : findCart db sid = some c)
    (hne : cartItemsOf db c.id ≠ []) :
    ∃ o : Order,
      (createOrder db nid sid name phone address).1 = .created o ∧
      (createOrder db nid sid name phone address).2.orders = db.orders ++ [o] ∧
      o.status = .PENDING ∧
      o.items.length = (cartItemsOf db c.id).length ∧
      (∀ (i : ℕ) (h1 : i < o.items.length) (h2 : i < (cartItemsOf db c.id).length),
        (o.items.get ⟨i, h1⟩).price = unitPrice db ((cartItemsOf db c.id).get ⟨i, h2⟩) ∧
        (o.items.get ⟨i, h1⟩).quantity = ((cartItemsOf db c.id).get ⟨i, h2⟩).quantity ∧
        (o.items.get ⟨i, h1⟩).subtotal =
          (o.items.get ⟨i, h1⟩).price * (((o.items.get ⟨i, h1⟩).quantity : ℤ) : ℚ) ∧
        (o.items.get ⟨i, h1⟩).productId = ((cartItemsOf db c.id).get ⟨i, h2⟩).productId ∧
        (o.items.get ⟨i, h1⟩).packageId = ((cartItemsOf db c.id).get ⟨i, h2⟩).packageId) ∧
      o.total = (o.items.map (fun oi => oi.subtotal)).sum := by
  refine ⟨checkoutOrder db nid sid name phone address c, ?_, ?_, rfl, ?_, ?_, ?_⟩
  · rw [createOrder_success db nid sid name phone address c hv hc hne]
  · rw [createOrder_success db nid sid name phone address c hv hc hne]
  · simp [checkoutOrder]
  · intro i h1 h2
    simp [checkoutOrder, orderItemOf, List.get_eq_getElem, List.getElem_map]
  · simp only [checkoutOrder, List.map_map]
    rw [← List.sum_eq_foldl]
    rfl

/-- Concrete totals of the order placed from the example cart `dbW`. -/
theorem dbW_order_total : ∃ o : Order,
    (createOrder dbW "corderwwww0001" "csessionwwww01" "Alice" "0123456" "addr").1
      = .created o ∧
    o.total = 91/2 ∧
    o.items.map (fun oi => oi.price) = [10, 51/2] ∧
    o.items.map (fun oi => oi.subtotal) = [20, 51/2] := by
  refine ⟨checkoutOrder dbW "corderwwww0001" "csessionwwww01" "Alice" "0123456" "addr" cartW, ?_, ?_, ?_, ?_⟩
  · rw [createOrder_success dbW "corderwwww0001" "csessionwwww01" "Alice"
      "0123456" "addr" cartW (by decide) (by decide) (by decide)]
  · have hitems : cartItemsOf dbW cartW.id = [itemW1, itemW2] := by decide
    show ((cartItemsOf dbW cartW.id).map
      (fun it => unitPrice dbW it * (it.quantity : ℚ))).foldl (· + ·) 0 = 91/2
    rw [hitems, List.map_cons, List.map_cons, List.map_nil,
      List.foldl_cons, List.foldl_cons, List.foldl_nil]
    have hu1 : unitPrice dbW itemW1 = 10 := rfl
    have hu2 : unitPrice dbW itemW2 = 51/2 := rfl
    have hq1 : itemW1.quantity = 2 := rfl
    have hq2 : itemW2.quantity = 1 := rfl
    rw [hu1, hu2, hq1, hq2]
    norm_num
  · have hitems : cartItemsOf dbW cartW.id = [itemW1, itemW2] := by decide
    show (((cartItemsOf dbW cartW.id).map (orderItemOf dbW)).map
      (fun oi => oi.price)) = [10, 51/2]
    rw [hitems]
    have hu1 : unitPrice dbW itemW1 = 10 := rfl
    have hu2 : unitPrice dbW itemW2 = 51/2 := rfl
    simp [orderItemOf, hu1, hu2]
  · have hitems : cartItemsOf dbW cartW.id = [itemW1, itemW2] := by decide
    show (((cartItemsOf dbW cartW.id).map (orderItemOf dbW)).map
      (fun oi => oi.subtotal)) = [20, 51/2]
    rw [hitems]
    have hu1 : unitPrice dbW itemW1 = 10 := rfl
    have hu2 : unitPrice dbW itemW2 = 51/2 := rfl
    have hq1 : itemW1.quantity = 2 := rfl
    have hq2 : itemW2.quantity = 1 := rfl
    simp [orderItemOf, hu1, hu2, hq1, hq2]
    norm_num

/-- Witness for C2 at the spec example cart: product at 10.00 times 2 and
package at 25.50 times 1 give subtotals 20.00 and 25.50 and total 45.50. -/
theorem createOrder_price_snapshot_witness :
    orderBodyValid "csessionwwww01" "Alice" "0123456" "addr" = true ∧
    findCart dbW "csessionwwww01" = some cartW ∧
    cartItemsOf dbW cartW.id ≠ [] ∧
    (∃ o : Order,
      (createOrder dbW "corderwwww0001" "csessionwwww01" "Alice" "0123456" "addr").1 = .created o ∧
      (createOrder dbW "corderwwww0001" "csessionwwww01" "Alice" "0123456" "addr").2.orders = dbW.orders ++ [o] ∧
      o.status = .PENDING ∧
      o.items.length = (cartItemsOf dbW cartW.id).length ∧
      (∀ (i : ℕ) (h1 : i < o.items.length) (h2 : i < (cartItemsOf dbW cartW.id).length),
        (o.items.get ⟨i, h1⟩).price = unitPrice dbW ((cartItemsOf dbW cartW.id).get ⟨i, h2⟩) ∧
        (o.items.get ⟨i, h1⟩).quantity = ((cartItemsOf dbW cartW.id).get ⟨i, h2⟩).quantity ∧
        (o.items.get ⟨i, h1⟩).subtotal =
          (o.items.get ⟨i, h1⟩).price * (((o.items.get ⟨i, h1⟩).quantity : ℤ) : ℚ) ∧
        (o.items.get ⟨i, h1⟩).productId = ((cartItemsOf dbW cartW.id).get ⟨i, h2⟩).productId ∧
        (o.items.get ⟨i, h1⟩).packageId = ((cartItemsOf dbW cartW.id).get ⟨i, h2⟩).packageId) ∧
      o.total = (o.items.map (fun oi => oi.subtotal)).sum) ∧
    (∃ o : Order,
      (createOrder dbW "corderwwww0001" "csessionwwww01" "Alice" "0123456" "addr").1 = .created o ∧
      o.total = 91/2 ∧
      o.items.map (fun oi => oi.price) = [10, 51/2] ∧
      o.items.map (fun oi => oi.subtotal) = [20, 51/2]) :=
  ⟨by decide, by decide, by decide,
    createOrder_price_snapshot dbW "corderwwww0001" "csessionwwww01" "Alice"
      "0123456" "addr" cartW (by decide) (by decide) (by decide),
    dbW_order_total⟩

/-- C3: OrderLine prices are point-in-time snapshots.  Updating a product's
catalog price or a package's price leaves the orders table untouched, and
`updateOrderStatus` preserves every order's id, items (hence every line's
price and subtotal), total, and customer fields — only the status field can
change. -/
theorem order_snapshot_immutable (db : DB) (pid pkid oid st : String)
    (p2 p3 : ℚ) :
    (updateProduct db pid p2).orders = db.orders ∧
    (updatePackage db pkid p3).orders = db.orders ∧
    (∀ o, o ∈ db.orders → ∃ o',
      o' ∈ (updateOrderStatusOp db oid st).2.orders ∧
      o'.id = o.id ∧ o'.items = o.items ∧ o'.total = o.total ∧
      o'.sessionId = o.sessionId ∧ o'.name = o.name ∧ o'.phone = o.phone ∧
      o'.address = o.address) := by
  refine ⟨rfl, rfl, ?_⟩
  intro o ho
  rw [updateOrderStatusOp]
  cases hcu : isCuid oid with
  | false => exact ⟨o, by simp [ho]⟩
  | true =>
    cases hps : parseStatus st with
    | none => exact ⟨o, by simp [ho]⟩
    | some s =>
      cases hf : db.orders.find? (fun x => x.id == oid) with
      | none => exact ⟨o, by simp [ho]⟩
      | some o0 =>
        refine ⟨if o.id == oid then { o with status := s } else o, ?_⟩
        constructor
        · simp only [Bool.not_true, Bool.false_eq_true, if_false]
          exact List.mem_map_of_mem _ ho
        · by_cases h : o.id == oid
          · simp [h]
          · simp [h]

/-- Witness for C3 at a store holding one placed order. -/
theorem order_snapshot_immutable_witness :
    (updateProduct dbO "cprodbbbbb0001" 99).orders = dbO.orders ∧
    (updatePackage dbO "cpkgbbbbb00001" 99).orders = dbO.orders ∧
    (∃ o', o' ∈ (updateOrderStatusOp dbO "corderooo00001" "CONFIRMED").2.orders ∧
      o'.id = orderO.id ∧ o'.items = orderO.items ∧ o'.total = orderO.total ∧
      o'.sessionId = orderO.sessionId ∧ o'.name = orderO.name ∧
      o'.phone = orderO.phone ∧ o'.address = orderO.address) :=
  have h := order_snapshot_immutable dbO "cprodbbbbb0001" "cpkgbbbbb00001"
    "corderooo00001" "CONFIRMED" 99 99
  ⟨h.1, h.2.1, h.2.2 orderO (List.mem_singleton.mpr rfl)⟩

/-- C4: add-item never duplicates a line.  For a session with a cart holding
no line for the given single reference, adding quantity `q1` and then `q2`
for the same reference answers `201` both times and leaves exactly one line
for that `(cart, reference)` pair, with quantity `q1 + q2`. -/
theorem addItem_no_duplicate (db : DB) (sid : String) (c : Cart)
    (productId packageId : Option String) (q1 q2 : Int)
    (cid1 fid1 cid2 fid2 : String)
    (hs : sid.isEmpty = false)
    (hxor : productId.isSome ≠ packageId.isSome)
    (hc : findCart db sid = some c)
    (h0 : ∀ it ∈ db.cartItems, it.cartId = c.id →
      ¬(it.productId = productId ∧ it.packageId = packageId))
    (hfresh : ∀ it ∈ db.cartItems, it.id ≠ fid1) :
    (addItemToCart db cid1 fid1 sid productId packageId (some q1)).1 =
      .created { id := fid1, cartId := c.id, productId := productId,
                 packageId := packageId, quantity := q1 } ∧
    (addItemToCart
        (addItemToCart db cid1 fid1 sid productId packageId (some q1)).2
        cid2 fid2 sid productId packageId (some q2)).1 =
      .created { id := fid1, cartId := c.id, productId := productId,
                 packageId := packageId, quantity := q1 + q2 } ∧
    ((addItemToCart
        (addItemToCart db cid1 fid1 sid productId packageId (some q1)).2
        cid2 fid2 sid productId packageId (some q2)).2.cartItems.filter
      (fun it => it.cartId == c.id && it.productId == productId
        && it.packageId == packageId)) =
      [{ id := fid1, cartId := c.id, productId := productId,
         packageId := packageId, quantity := q1 + q2 }] := by
  -- the reference checks pass: exactly one of the two ids is present
  have hrefs1 : (productId.isNone && packageId.isNone) = false := by
    cases productId <;> cases packageId <;> simp_all
  have hrefs2 : (productId.isSome && packageId.isSome) = false := by
    cases productId <;> cases packageId <;> simp_all
  -- no existing line matches the reference pair
  have hpred : ∀ it ∈ db.cartItems,
      (it.cartId == c.id && it.productId == productId
        && it.packageId == packageId) = false := by
    intro it hit
    by_cases hcart : it.cartId = c.id
    · have := h0 it hit hcart
      by_cases hp : it.productId = productId
      · have hk : it.packageId ≠ packageId := fun hk => this ⟨hp, hk⟩
        simp [hp, hk]
      · simp [hp]
    · simp [hcart]
  have hfind0 : db.cartItems.find?
      (fun it => it.cartId == c.id && it.productId == productId
        && it.packageId == packageId) = none := by
    rw [List.find?_eq_none]
    intro it hit
    simp [hpred it hit]
  set newItem : CartItem :=
    { id := fid1, cartId := c.id, productId := productId,
      packageId := packageId, quantity := q1 } with hnew
  -- step 1 inserts a fresh line
  have hstep1 : addItemToCart db cid1 fid1 sid productId packageId (some q1) =
      (.created newItem, { db with cartItems := db.cartItems ++ [newItem] }) := by
    rw [addItemToCart]
    rw [if_neg (by simp [hs]), if_neg (by simp [hrefs1]), if_neg (by simp [hrefs2]), hc]
    show insertOrBump db c fid1 productId packageId ((some q1).getD 1) = _
    rw [insertOrBump, hfind0]
    rfl
  -- step 2: the freshly inserted line is found and bumped
  set updItem : CartItem :=
    { id := fid1, cartId := c.id, productId := productId,
      packageId := packageId, quantity := q1 + q2 } with hupd
  have hpredNew : (newItem.cartId == c.id && newItem.productId == productId
      && newItem.packageId == packageId) = true := by
    simp [hnew]
  have hfind1 : (db.cartItems ++ [newItem]).find?
      (fun it => it.cartId == c.id && it.productId == productId
        && it.packageId == packageId) = some newItem := by
    rw [List.find?_append, hfind0]
    simp [hpredNew]
  have hstep2 : addItemToCart { db with cartItems := db.cartItems ++ [newItem] }
      cid2 fid2 sid productId packageId (some q2) =
      (.created updItem,
       { db with cartItems := db.cartItems.map (fun it =>
           if (it.id == fid1) = true then
             { it with quantity := q1 + q2 } else it) ++ [updItem] }) := by
    rw [addItemToCart]
    rw [if_neg (by simp [hs]), if_neg (by simp [hrefs1]), if_neg (by simp [hrefs2])]
    have hc1 : findCart { db with cartItems := db.cartItems ++ [newItem] } sid = some c := hc
    rw [hc1]
    show insertOrBump { db with cartItems := db.cartItems ++ [newItem] } c fid2
      productId packageId ((some q2).getD 1) = _
    have hfind1c : ({ db with cartItems := db.cartItems ++ [newItem] } : DB).cartItems.find?
        (fun it => it.cartId == c.id && it.productId == productId
          && it.packageId == packageId) = some newItem := hfind1
    rw [insertOrBump_found _ c fid2 productId packageId _ _ hfind1c]
    have hq2 : ((some q2).getD 1 : Int) = q2 := rfl
    simp only [Prod.mk.injEq]
    constructor
    · simp [hnew, hupd]
    · rw [List.map_append]
      simp only [Option.getD_some]
      congr 1
      simp [hnew, hupd]
  have hstep12 : (addItemToCart db cid1 fid1 sid productId packageId (some q1)).2
      = { db with cartItems := db.cartItems ++ [newItem] } := by rw [hstep1]
  refine ⟨?_, ?_, ?_⟩
  · rw [hstep1]
  · rw [hstep12, hstep2]
  · rw [hstep12, hstep2]
    show ((db.cartItems.map (fun it =>
        if (it.id == fid1) = true then { it with quantity := q1 + q2 } else it))
        ++ [updItem]).filter (fun it => it.cartId == c.id
          && it.productId == productId && it.packageId == packageId)
      = [{ id := fid1, cartId := c.id, productId := productId,
           packageId := packageId, quantity := q1 + q2 }]
    rw [List.filter_append]
    have hfe : (db.cartItems.map (fun it =>
        if (it.id == fid1) = true then { it with quantity := q1 + q2 } else it)).filter
          (fun it => it.cartId == c.id && it.productId == productId
            && it.packageId == packageId) = [] := by
      rw [List.filter_eq_nil_iff]
      intro x hx
      obtain ⟨it, hit, rfl⟩ := List.mem_map.mp hx
      by_cases h : (it.id == fid1) = true
      · rw [if_pos h]
        simpa using hpred it hit
      · rw [if_neg h]
        simp [hpred it hit]
    rw [hfe]
    simp [hupd]

/-- Witness for C4: adding the same product with quantities 2 then 3 leaves
one line of quantity 5. -/
theorem addItem_no_duplicate_witness :
    (addItemToCart db9 "cx1cccccccccc1" "citemddddd0001" "csessionbbbb01"
      (some "cprodbbbbb0001") none (some 2)).1 =
      .created { id := "citemddddd0001", cartId := cartB.id,
                 productId := some "cprodbbbbb0001", packageId := none,
                 quantity := 2 } ∧
    (addItemToCart
        (addItemToCart db9 "cx1cccccccccc1" "citemddddd0001" "csessionbbbb01"
          (some "cprodbbbbb0001") none (some 2)).2
        "cx2cccccccccc2" "citemeeeee0001" "csessionbbbb01"
        (some "cprodbbbbb0001") none (some 3)).1 =
      .created { id := "citemddddd0001", cartId := cartB.id,
                 productId := some "cprodbbbbb0001", packageId := none,
                 quantity := 2 + 3 } ∧
    ((addItemToCart
        (addItemToCart db9 "cx1cccccccccc1" "citemddddd0001" "csessionbbbb01"
          (some "cprodbbbbb0001") none (some 2)).2
        "cx2cccccccccc2" "citemeeeee0001" "csessionbbbb01"
        (some "cprodbbbbb0001") none (some 3)).2.cartItems.filter
      (fun it => it.cartId == cartB.id
        && it.productId == (some "cprodbbbbb0001" : Option String)
        && it.packageId == (none : Option String))) =
      [{ id := "citemddddd0001", cartId := cartB.id,
         productId := some "cprodbbbbb0001", packageId := none,
         quantity := 2 + 3 }] :=
  addItem_no_duplicate db9 "csessionbbbb01" cartB (some "cprodbbbbb0001") none
    2 3 "cx1cccccccccc1" "citemddddd0001" "cx2cccccccccc2" "citemeeeee0001"
    (by decide) (by decide) (by decide) (by decide) (by decide)

/-- C5: place-order on a session whose cart is missing or has zero lines
answers the domain error `400 Cart is empty or does not exist for this
session` and returns the store exactly as it was — no order, no order
lines, no cart change. -/
theorem createOrder_empty (db : DB) (nid sid name phone address : String)
    (hv : orderBodyValid sid name phone address = true)
    (h : findCart db sid = none ∨
      ∃ c, findCart db sid = some c ∧ cartItemsOf db c.id = []) :
    createOrder db nid sid name phone address =
      (.emptyCart "Cart is empty or does not exist for this session", db) := by
  rw [createOrder, createOrderF, if_neg (by simp [hv])]
  rcases h with h | ⟨c, hc, he⟩
  · rw [h]
  · simp only [hc, he, List.isEmpty_nil, if_true]

/-- Witness for C5, for both a missing cart and an empty existing cart. -/
theorem createOrder_empty_witness :
    orderBodyValid "csessionvvvv01" "Alice" "0123456" "addr" = true ∧
    findCart dbB "csessionvvvv01" = none ∧
    createOrder dbB "cordervvvv0001" "csessionvvvv01" "Alice" "0123456" "addr" =
      (.emptyCart "Cart is empty or does not exist for this session", dbB) ∧
    findCart db9 "csessionbbbb01" = some cartB ∧
    cartItemsOf db9 cartB.id = [] ∧
    createOrder db9 "cordervvvv0001" "csessionbbbb01" "Alice" "0123456" "addr" =
      (.emptyCart "Cart is empty or does not exist for this session", db9) :=
  ⟨by decide, by decide,
    createOrder_empty dbB "cordervvvv0001" "csessionvvvv01" "Alice" "0123456"
      "addr" (by decide) (Or.inl (by decide)),
    by decide, by decide,
    createOrder_empty db9 "cordervvvv0001" "csessionbbbb01" "Alice" "0123456"
      "addr" (by decide) (Or.inr ⟨cartB, by decide, by decide⟩)⟩

/-- C6 (amended): the order-workflow monetary computations are exact.  The
current `createOrder` computes with `Prisma.Decimal`, and the created
order's total equals the exact decimal sum of unit price times quantity
over the cart lines (`exactCartTotal`), with no rounding at any step.  (The
cart-summary half of the original claim fails; see the counterexample.) -/
theorem createOrder_total_exact (db : DB) (nid sid name phone address : String)
    (c : Cart)
    (hv : orderBodyValid sid name phone address = true)
    (hc : findCart db sid = some c)
    (hne : cartItemsOf db c.id ≠ []) :
    ∃ o : Order,
      (createOrder db nid sid name phone address).1 = .created o ∧
      o.total = exactCartTotal db c.id := by
  refine ⟨checkoutOrder db nid sid name phone address c, ?_, ?_⟩
  · rw [createOrder_success db nid sid name phone address c hv hc hne]
  · rw [checkoutOrder, exactCartTotal, ← List.sum_eq_foldl]

/-- Exact decimal total of the example cart `dbW`. -/
theorem exactTotal_dbW : exactCartTotal dbW cartW.id = 91/2 := by
  have hitems : cartItemsOf dbW cartW.id = [itemW1, itemW2] := by decide
  rw [exactCartTotal, hitems, List.map_cons, List.map_cons, List.map_nil,
    List.sum_cons, List.sum_cons, List.sum_nil]
  have hu1 : unitPrice dbW itemW1 = 10 := rfl
  have hu2 : unitPrice dbW itemW2 = 51/2 := rfl
  have hq1 : itemW1.quantity = 2 := rfl
  have hq2 : itemW2.quantity = 1 := rfl
  rw [hu1, hu2, hq1, hq2]
  norm_num

/-- Witness for the amended C6 at the spec example cart (total 45.50). -/
theorem createOrder_total_exact_witness :
    orderBodyValid "csessionwwww01" "Alice" "0123456" "addr" = true ∧
    findCart dbW "csessionwwww01" = some cartW ∧
    cartItemsOf dbW cartW.id ≠ [] ∧
    (∃ o : Order,
      (createOrder dbW "corderwwww0001" "csessionwwww01" "Alice" "0123456" "addr").1 = .created o ∧
      o.total = exactCartTotal dbW cartW.id) ∧
    exactCartTotal dbW cartW.id = 91/2 :=
  ⟨by decide, by decide, by decide,
    createOrder_total_exact dbW "corderwwww0001" "csessionwwww01" "Alice"
      "0123456" "addr" cartW (by decide) (by decide) (by decide),
    exactTotal_dbW⟩

/-- C7: update-item with quantity exactly `0` is equivalent to remove-item.
On every store, session, and line id the two handlers produce identical
resulting states, and for a line owned by the session's cart the line is
absent from every subsequent get-or-create-cart read. -/
theorem updateZero_eq_remove (db : DB) (sid itemId : String) :
    (updateCartItem db sid itemId 0).2 = (removeItemFromCart db sid itemId).2 ∧
    (∀ c, findCart db sid = some c →
      (∃ it, it ∈ cartItemsOf db c.id ∧ it.id = itemId) →
      sid.isEmpty = false → itemId.isEmpty = false →
      ∀ freshId it2,
        it2 ∈ gocItems (getOrCreateCart (updateCartItem db sid itemId 0).2 freshId sid).1 →
        it2.id ≠ itemId) := by
  constructor
  · rw [updateCartItem, removeItemFromCart]
    by_cases hse : (sid.isEmpty || itemId.isEmpty) = true
    · rw [if_pos hse, if_pos hse]
    · rw [if_neg hse, if_neg hse, if_neg (lt_irrefl (0 : ℤ))]
      split
      · rfl
      · split
        · rfl
        · rfl
  · intro c hc hex hs hi freshId it2 hin
    obtain ⟨it, hmem, hid⟩ := hex
    have hne : (cartItemsOf db c.id).filter (fun x => x.id == itemId) ≠ [] := by
      intro h
      have := List.filter_eq_nil_iff.mp h it hmem
      rw [hid] at this
      simp at this
    have hupd : (updateCartItem db sid itemId 0).2 = deleteCartItem db itemId := by
      rw [updateCartItem, if_neg (by simp [hs, hi]), if_neg (lt_irrefl (0 : ℤ))]
      split
      · next heq =>
        rw [hc] at heq
        cases heq
      · next c2 heq =>
        rw [hc] at heq
        injection heq with h2
        subst h2
        split
        · next hm2 => exact absurd hm2 hne
        · rfl
    rw [hupd] at hin
    have hgoc : (getOrCreateCart (deleteCartItem db itemId) freshId sid).1 =
        .okCart c (cartItemsOf (deleteCartItem db itemId) c.id) := by
      rw [getOrCreateCart, if_neg (by simp [hs])]
      have hc2 : findCart (deleteCartItem db itemId) sid = some c := hc
      rw [hc2]
    rw [hgoc] at hin
    simp only [gocItems] at hin
    have h2 : it2 ∈ db.cartItems.filter (fun x => !(x.id == itemId)) :=
      (List.mem_filter.mp hin).1
    have h3 := (List.mem_filter.mp h2).2
    intro heq
    rw [heq] at h3
    simp at h3

/-- Witness for C7: deleting a two-line cart line via quantity 0. -/
theorem updateZero_eq_remove_witness :
    (updateCartItem db7 "csessionbbbb01" "citembbbbb0001" 0).2 =
      (removeItemFromCart db7 "csessionbbbb01" "citembbbbb0001").2 ∧
    itemC.id ≠ "citembbbbb0001" :=
  have h := updateZero_eq_remove db7 "csessionbbbb01" "citembbbbb0001"
  ⟨h.1, h.2 cartB (by decide) ⟨itemB, by decide, by decide⟩ (by decide)
    (by decide) "cfresh00000001" itemC (by decide)⟩

/-- C8: update-order-status accepts exactly the fixed enumeration.  A status
outside the six enum strings is answered with a validation error and the
store is returned unchanged; a valid status for a well-formed (cuid) order
id that matches no order is answered with `404 Not Found` and no change;
and `parseStatus` succeeds exactly on the six enum member strings. -/
theorem updateOrderStatus_c8 (db : DB) (oid st : String) :
    (parseStatus st = none →
      (updateOrderStatusOp db oid st).2 = db ∧
      StatusResp.isValidationErr (updateOrderStatusOp db oid st).1) ∧
    (∀ s, isCuid oid = true → parseStatus st = some s →
      db.orders.find? (fun o => o.id == oid) = none →
      updateOrderStatusOp db oid st = (.notFound, db)) ∧
    (∀ str, (parseStatus str).isSome = true ↔
      str = "PENDING" ∨ str = "CONFIRMED" ∨ str = "PROCESSING" ∨
      str = "SHIPPED" ∨ str = "DELIVERED" ∨ str = "CANCELLED") := by
  refine ⟨?_, ?_, ?_⟩
  · intro hn
    rw [updateOrderStatusOp]
    cases hcu : isCuid oid with
    | false =>
      constructor
      · rfl
      · trivial
    | true =>
      simp only [hn, Bool.not_true, Bool.false_eq_true, if_false]
      exact ⟨trivial, trivial⟩
  · intro s hcu hps hf
    rw [updateOrderStatusOp]
    simp only [hcu, hps, hf, Bool.not_true, Bool.false_eq_true, if_false]
  · intro str
    rw [parseStatus]
    split_ifs with h1 h2 h3 h4 h5 h6 <;> simp_all [beq_iff_eq]

/-- Witness for C8: a rejected status string, a missing order id, and a
member of the enumeration. -/
theorem updateOrderStatus_c8_witness :
    ((updateOrderStatusOp dbO "corderooo00001" "SHIPPED_WRONG").2 = dbO ∧
      StatusResp.isValidationErr
        (updateOrderStatusOp dbO "corderooo00001" "SHIPPED_WRONG").1) ∧
    updateOrderStatusOp dbO "cordermissing01" "CONFIRMED" = (.notFound, dbO) ∧
    (parseStatus "PENDING").isSome = true :=
  ⟨(updateOrderStatus_c8 dbO "corderooo00001" "SHIPPED_WRONG").1 (by decide),
   (updateOrderStatus_c8 dbO "cordermissing01" "CONFIRMED").2.1 .CONFIRMED
     (by decide) (by decide) (by decide),
   ((updateOrderStatus_c8 dbO "cordermissing01" "CONFIRMED").2.2 "PENDING").mpr
     (Or.inl rfl)⟩

/-- C9: evidence for the code bug.  The wired add-item handler performs no
quantity validation: a request with quantity `0` is answered `201` and a
line with quantity `0` is persisted, while the repository's own (unwired)
`addToCartSchema` rejects that same request. -/
theorem addItem_accepts_zero_quantity :
    (addItemToCart db9 "x" "citemzzzzz0001" "csessionbbbb01"
      (some "cprodbbbbb0001") none (some 0)).1 =
      .created { id := "citemzzzzz0001", cartId := "ccartbbbbb0001",
                 productId := some "cprodbbbbb0001", packageId := none,
                 quantity := 0 } ∧
    (addItemToCart db9 "x" "citemzzzzz0001" "csessionbbbb01"
      (some "cprodbbbbb0001") none (some 0)).2.cartItems =
      [{ id := "citemzzzzz0001", cartId := "ccartbbbbb0001",
         productId := some "cprodbbbbb0001", packageId := none,
         quantity := 0 }] ∧
    addToCartSchemaAccepts (some "cprodbbbbb0001") none (some 0) none = false := by
  refine ⟨?_, ?_, ?_⟩ <;> decide

/-- C10: ownership failures are indistinguishable from absence.  For a line
that exists but belongs to another session's cart (`db1`) and for a line id
that exists nowhere (`db2`), update-item and remove-item answer the
identical `404 Cart item not found` response and leave the store unchanged,
so the two runs are indistinguishable to the caller. -/
theorem foreign_absent_indistinguishable (db1 db2 : DB) (sid itemId : String)
    (q : ℤ) (hq : 0 ≤ q)
    (hs : sid.isEmpty = false) (hi : itemId.isEmpty = false)
    (hforeign : ∃ it ∈ db1.cartItems, it.id = itemId ∧
      ∃ c2 ∈ db1.carts, it.cartId = c2.id ∧ c2.sessionId ≠ sid)
    (h1 : ∀ c, findCart db1 sid = some c → ∀ it ∈ cartItemsOf db1 c.id, it.id ≠ itemId)
    (h2 : ∀ it ∈ db2.cartItems, it.id ≠ itemId) :
    updateCartItem db1 sid itemId q = (.notFound "Cart item not found", db1) ∧
    updateCartItem db2 sid itemId q = (.notFound "Cart item not found", db2) ∧
    removeItemFromCart db1 sid itemId = (.notFound "Cart item not found", db1) ∧
    removeItemFromCart db2 sid itemId = (.notFound "Cart item not found", db2) ∧
    (updateCartItem db1 sid itemId q).1 = (updateCartItem db2 sid itemId q).1 ∧
    (removeItemFromCart db1 sid itemId).1 = (removeItemFromCart db2 sid itemId).1 := by
  have h2c : ∀ c, findCart db2 sid = some c →
      ∀ it ∈ cartItemsOf db2 c.id, it.id ≠ itemId := by
    intro c _ it hit
    exact h2 it (List.mem_filter.mp hit).1
  have hu1 := updateCartItem_notFound db1 sid itemId q hs hi (not_lt.mpr hq) h1
  have hu2 := updateCartItem_notFound db2 sid itemId q hs hi (not_lt.mpr hq) h2c
  have hr1 := removeItemFromCart_notFound db1 sid itemId hs hi h1
  have hr2 := removeItemFromCart_notFound db2 sid itemId hs hi h2c
  refine ⟨hu1, hu2, hr1, hr2, ?_, ?_⟩
  · rw [hu1, hu2]
  · rw [hr1, hr2]

/-- Witness for C10: a line owned by another session versus no line at all. -/
theorem foreign_absent_indistinguishable_witness :
    updateCartItem db10a "csessionbbbb01" "citemfffff0001" 3 =
      (.notFound "Cart item not found", db10a) ∧
    updateCartItem db10b "csessionbbbb01" "citemfffff0001" 3 =
      (.notFound "Cart item not found", db10b) ∧
    removeItemFromCart db10a "csessionbbbb01" "citemfffff0001" =
      (.notFound "Cart item not found", db10a) ∧
    removeItemFromCart db10b "csessionbbbb01" "citemfffff0001" =
      (.notFound "Cart item not found", db10b) ∧
    (updateCartItem db10a "csessionbbbb01" "citemfffff0001" 3).1 =
      (updateCartItem db10b "csessionbbbb01" "citemfffff0001" 3).1 ∧
    (removeItemFromCart db10a "csessionbbbb01" "citemfffff0001").1 =
      (removeItemFromCart db10b "csessionbbbb01" "citemfffff0001").1 :=
  foreign_absent_indistinguishable db10a db10b "csessionbbbb01" "citemfffff0001"
    3 (by decide) (by decide) (by decide)
    ⟨itemF, by decide, rfl, cartF, by decide, rfl, by decide⟩
    (by
      intro c hc it hit
      have h0 : findCart db10a "csessionbbbb01" = some cartB := by decide
      rw [h0] at hc
      injection hc with h2
      subst h2
      have hall : ∀ it2 ∈ cartItemsOf db10a cartB.id,
          it2.id ≠ "citemfffff0001" := by decide
      exact hall it hit)
    (by decide)

/-- C6 (counterexample): cart-summary is not exact fixed-point decimal.  For
the cart of `db6` (one product priced `99999999.99`, quantity `999999`) the
handler computes the total in binary64 floating point and reports
`99999899990000` (printed `99999899990000.00`), while the exact decimal sum
of price times quantity is `99999899990000.01` — a whole cent is lost, so
the computed total does not equal the exact decimal sum. -/
theorem cartSummary_float_drift :
    getCartSummary db6 "csessionaaaa01" = .summary 999999 99999899990000 1 ∧
    exactCartTotal db6 "ccartaaaaa0001" = 9999989999000001/100 ∧
    (99999899990000 : ℚ) ≠ 9999989999000001/100 :=
  ⟨cartSummary_db6, exactCartTotal_db6, by norm_num⟩

end Ecom
